import Mathlib

/-!
Verification of the image-classification serving adapter in
serving_code.ipynb (class TFModel).

The Python class is shallowly embedded:
* Python dictionaries that matter here carry a single relevant key
  (the key "instances"); they are modelled by a structure with an
  optional field, absence of the field modelling absence of the key.
* Python floats are modelled as exact rationals: the adapter performs no
  float arithmetic, only comparisons (np.max), where floats and
  rationals agree.
* numpy arrays are modelled by their shape together with a flat data
  list; np.vstack, np.expand_dims and keras img_to_array act on this
  representation exactly as the numpy and keras documentation
  specifies for the shapes arising here.
* fallible Python code returns Except PyErr; a bare "except:" block is a
  match on the Except value.
* the external collaborators that the adapter merely calls
  (the PIL resampling kernel that fills the pixels of a resized image,
  json.load, the loaded keras predictor) are parameters of the
  functions that use them, so every theorem below is quantified over
  every possible behaviour of those collaborators.
-/

deriving instance DecidableEq for Except

/-- Python exception values that the adapter can raise or observe. -/
inductive PyErr where
  | keyError (key : String)
  | valueError (msg : String)
  | indexError (msg : String)
  | fileError (path : String)
  | exception (msg : String)
deriving DecidableEq

/-- A decoded PIL image: its size, its number of colour channels
(three for RGB, one for a greyscale image, four for RGBA, ...;
PIL keeps the mode of the source bytes and resize preserves it),
and its pixel data flattened in row-major order. -/
structure PILImage where
  width : Nat
  height : Nat
  channels : Nat
  pixels : List Rat
deriving DecidableEq

/-- One entry of the request batch: the raw bytes sent by the client,
together with the result of decoding them (PIL Image.open succeeds and
yields an image, or the bytes are malformed and Image.open raises). -/
structure EncImage where
  bytes : String
  decoded : Option PILImage
deriving DecidableEq

/-- A Python dict whose only relevant key is "instances"; the field is
none when the key is absent. Used both for the request body (values
are encoded images) and for the stacked payload handed to predict
(values are numpy arrays). -/
structure InstancesDict (α : Type) where
  instances? : Option (List α)
deriving DecidableEq

/-- A request body: a dict optionally holding encoded images under
the key "instances". -/
abbrev Body := InstancesDict EncImage

/-- A numpy ndarray, modelled as its shape and flat contents. -/
structure NDArray where
  shape : List Nat
  data : List Rat
deriving DecidableEq

/-- The response payload: a dict with the single key "Mask probability". -/
structure Response where
  mask_probability : Rat
deriving DecidableEq

/-- JSON values, for the class-label mapping loaded from the file named
by the classes_map environment variable. -/
inductive Json where
  | null
  | bool (b : Bool)
  | num (q : Rat)
  | str (s : String)
  | arr (elems : List Json)
  | obj (fields : List (String × Json))

/-- The process environment: the environment variables and the readable
files, each as an association list. -/
structure Env where
  vars : List (String × String)
  files : List (String × String)

/-- The adapter state set up by TFModel.__init__ (the loaded keras model
of self.model is passed separately to predict, see TFModel.predict). -/
structure TFModel where
  name : String
  model_dir : String
  IMAGE_WIDTH : Int
  IMAGE_HEIGHT : Int
  classes : Option Json

/-- The whitespace characters stripped by Python int(). -/
def isPySpace (c : Char) : Bool :=
  c = ' ' || c = '\t' || c = '\n' || c = '\r' || c = '\x0b' || c = '\x0c'

/-- Strip leading and trailing whitespace from a character list. -/
def stripChars (l : List Char) : List Char :=
  ((l.dropWhile isPySpace).reverse.dropWhile isPySpace).reverse

/-- Numeric value of a decimal digit character. -/
def digitVal (c : Char) : Nat := c.toNat - 48

/-- Value of a big-endian decimal digit string. -/
def digitsToNat (l : List Char) : Nat :=
  l.foldl (fun a c => 10 * a + digitVal c) 0

/-- Parse a nonempty all-digit character list. -/
def parseNatDigits (l : List Char) : Option Nat :=
  if l ≠ [] ∧ l.all Char.isDigit then some (digitsToNat l) else none

/-- The stripped character list of a Python int literal: an optional
sign followed by at least one decimal digit. -/
def pyIntCore : List Char → Option Int
  | [] => none
  | c :: cs =>
    if c = '-' then (parseNatDigits cs).map (fun k => -(k : Int))
    else if c = '+' then (parseNatDigits cs).map (fun k => (k : Int))
    else (parseNatDigits (c :: cs)).map (fun k => (k : Int))

/-- Python int() applied to a string: surrounding whitespace is ignored,
then an optional sign followed by at least one decimal digit; anything
else raises ValueError. (The underscore digit separator that CPython
also accepts is not modelled.) -/
def pyInt (s : String) : Except PyErr Int :=
  match pyIntCore (stripChars s.toList) with
  | some k => .ok k
  | none => .error (.valueError ("invalid literal for int with base 10: " ++ s))

/-- The decimal digit characters of a natural number, most significant
first. -/
def natDecimalChars (n : Nat) : List Char :=
  (Nat.digits 10 n).reverse.map (fun d => Char.ofNat (48 + d))

/-- The standard decimal string of an integer, as produced by toString
on a Python or Lean integer. -/
def intToDecimal (n : Int) : String :=
  match n with
  | .ofNat m => if m = 0 then "0" else String.mk (natDecimalChars m)
  | .negSucc m => String.mk ('-' :: natDecimalChars (m + 1))

/-- os.environ.get with a default: environment variable lookup. -/
def Env.getVar (e : Env) (k : String) : Option String := e.vars.lookup k

/-- open(path).read(): the contents of a file, or an IO error when the
file is missing. -/
def Env.readFile (e : Env) (p : String) : Except PyErr String :=
  match e.files.lookup p with
  | some c => .ok c
  | none => .error (.fileError p)

/-- The try/except block of TFModel.__init__: open the file named by the
classes_map environment variable and json.load it; on any failure
(unset variable raising KeyError, unreadable file, unparseable JSON)
the bare except sets self.classes to None. json.load is abstracted as
the parseJson parameter. -/
def loadClasses (parseJson : String → Option Json) (env : Env) : Option Json :=
  match env.getVar "classes_map" with
  | none => none
  | some p =>
    match env.readFile p with
    | .error _ => none
    | .ok contents => parseJson contents

/-- TFModel.__init__(name, model_dir): reads IMAGE_WIDTH and IMAGE_HEIGHT
from the environment with default the string 128 and converts them with
int() (a conversion failure propagates: these two lines are outside the
try block), then loads the optional class-label mapping. -/
def TFModel.init (parseJson : String → Option Json) (env : Env)
    (name model_dir : String) : Except PyErr TFModel := do
  let w ← pyInt ((env.getVar "IMAGE_WIDTH").getD "128")
  let h ← pyInt ((env.getVar "IMAGE_HEIGHT").getD "128")
  .ok { name := name, model_dir := model_dir, IMAGE_WIDTH := w, IMAGE_HEIGHT := h,
        classes := loadClasses parseJson env }

/-- PIL Image.open: decoding the bytes of one batch entry. -/
def imageOpen (b : EncImage) : Except PyErr PILImage :=
  match b.decoded with
  | some img => .ok img
  | none => .error (.valueError ("cannot identify image file " ++ b.bytes))

/-- PIL Image.resize((w, h)): a new image of the requested size and the
same mode (hence channel count); the resampled pixel contents are
computed by the PIL resampling kernel, abstracted as the resample
parameter. PIL raises when a requested dimension is not positive. -/
def PILImage.resize (img : PILImage) (resample : PILImage → Nat → Nat → List Rat)
    (w h : Int) : Except PyErr PILImage :=
  if 0 < w ∧ 0 < h then
    .ok { width := w.toNat, height := h.toNat, channels := img.channels,
          pixels := resample img w.toNat h.toNat }
  else .error (.valueError "height and width must be greater than 0")

/-- keras image.img_to_array: a (height, width, channels) array. -/
def img_to_array (img : PILImage) : NDArray :=
  { shape := [img.height, img.width, img.channels], data := img.pixels }

/-- np.expand_dims(x, axis=0): prepend a batch axis of extent 1. -/
def expand_dims0 (x : NDArray) : NDArray :=
  { shape := 1 :: x.shape, data := x.data }

/-- np.atleast_2d on a shape, as applied by np.vstack to each input. -/
def atleast2dShape : List Nat → List Nat
  | [] => [1, 1]
  | [k] => [1, k]
  | s => s

/-- np.atleast_2d on an array. -/
def atleast2d (a : NDArray) : NDArray :=
  { shape := atleast2dShape a.shape, data := a.data }

/-- np.vstack: concatenate along the first axis. The empty list raises
(need at least one array to concatenate); the trailing dimensions of
all inputs must agree exactly, else ValueError. -/
def vstack (arrs : List NDArray) : Except PyErr NDArray :=
  match arrs.map atleast2d with
  | [] => .error (.valueError "need at least one array to concatenate")
  | a :: rest =>
    match a.shape with
    | [] => .error (.valueError "zero-dimensional arrays cannot be concatenated")
    | n :: t =>
      if rest.all (fun b => decide (b.shape.tail = t) && decide (b.shape.length = t.length + 1)) then
        .ok { shape := (rest.foldl (fun s b => s + b.shape.headD 0) n) :: t,
              data := rest.foldl (fun d b => d ++ b.data) a.data }
      else
        .error (.valueError "all the input array dimensions except for the concatenation axis must match exactly")

/-- One iteration of the preprocess loop: Image.open, resize to the
configured (IMAGE_WIDTH, IMAGE_HEIGHT), img_to_array, expand_dims. -/
def processOne (st : TFModel) (resample : PILImage → Nat → Nat → List Rat)
    (b : EncImage) : Except PyErr NDArray := do
  let img ← imageOpen b
  let resized ← img.resize resample st.IMAGE_WIDTH st.IMAGE_HEIGHT
  .ok (expand_dims0 (img_to_array resized))

/-- The preprocess loop over the instances of the body, failing at the
first entry that raises. -/
def processAll (st : TFModel) (resample : PILImage → Nat → Nat → List Rat) :
    List EncImage → Except PyErr (List NDArray)
  | [] => .ok []
  | b :: rest => do
    let x ← processOne st resample b
    let xs ← processAll st resample rest
    .ok (x :: xs)

/-- Python str() of one batch entry inside str(body): the raw bytes. -/
def reprEncImage (b : EncImage) : String := b.bytes

/-- Python str(body) as interpolated into the f-string of the except
branch of preprocess: the dict rendered with its instances list, or an
empty dict when the key is absent. -/
def reprBody (body : Body) : String :=
  match body.instances? with
  | none => "\x7b\x7d"
  | some l => "\x7b instances: [" ++ String.intercalate ", " (l.map reprEncImage) ++ "] \x7d"

/-- The body of the try block of TFModel.preprocess: read
body.get(instances, []), run the per-image loop, np.vstack the results
and wrap the stacked tensor as a singleton list under "instances". -/
def preprocessTry (st : TFModel) (resample : PILImage → Nat → Nat → List Rat)
    (body : Body) : Except PyErr (InstancesDict NDArray) := do
  let instances := body.instances?.getD []
  let xs ← processAll st resample instances
  let t ← vstack xs
  .ok { instances? := some [t] }

/-- TFModel.preprocess: the try block, with the bare except re-raising
any failure as the single generic Exception whose message interpolates
the request body. -/
def TFModel.preprocess (st : TFModel) (resample : PILImage → Nat → Nat → List Rat)
    (body : Body) : Except PyErr (InstancesDict NDArray) :=
  match preprocessTry st resample body with
  | .ok r => .ok r
  | .error _ => .error (.exception ("received: " ++ reprBody body))

/-- TFModel.predict: data.get(instances, []) is handed to the loaded
predictor self.model.predict (the model parameter, set by load) and
the raw output is returned unchanged. -/
def TFModel.predict {β : Type} (st : TFModel) (model : List NDArray → β)
    (data : InstancesDict NDArray) : β :=
  model (data.instances?.getD [])

/-- np.max over one row of the output, as a Python list of floats; numpy
raises on an empty reduction. -/
def npMax (l : List Rat) : Except PyErr Rat :=
  match l with
  | [] => .error (.valueError "zero-size array to reduction operation maximum")
  | h :: t => .ok (t.foldl max h)

/-- TFModel.postprocess: predicted_probability.tolist()[0] (an
IndexError when there are no rows), np.max over that first row, wrapped
under the key "Mask probability". The adapter state is unused. -/
def TFModel.postprocess (st : TFModel) (predicted_probability : List (List Rat)) :
    Except PyErr Response :=
  match predicted_probability with
  | [] => .error (.indexError "list index out of range")
  | row :: _ => do
    let m ← npMax row
    .ok { mask_probability := m }

/-- One full request: preprocess, then predict, then postprocess, the
composition the hosting runtime invokes per request. -/
def pipeline (st : TFModel) (resample : PILImage → Nat → Nat → List Rat)
    (model : List NDArray → List (List Rat)) (body : Body) : Except PyErr Response := do
  let d ← st.preprocess resample body
  st.postprocess (st.predict model d)

theorem digitChar_facts {d : Nat} (hd : d < 10) :
    (Char.ofNat (48 + d)).isDigit = true ∧ digitVal (Char.ofNat (48 + d)) = d ∧
      isPySpace (Char.ofNat (48 + d)) = false := by
  interval_cases d <;> exact ⟨by decide, by decide, by decide⟩

theorem dropWhile_eq_self_of_forall {p : Char → Bool} {l : List Char}
    (h : ∀ c ∈ l, p c = false) : l.dropWhile p = l := by
  cases l with
  | nil => rfl
  | cons a t => simp [List.dropWhile, h a (by simp)]

theorem stripChars_eq_self {l : List Char} (h : ∀ c ∈ l, isPySpace c = false) :
    stripChars l = l := by
  unfold stripChars
  rw [dropWhile_eq_self_of_forall h, dropWhile_eq_self_of_forall (by simpa using h),
    List.reverse_reverse]

theorem foldl_base10_reverse (L : List Nat) (a : Nat) :
    List.foldl (fun x d => 10 * x + d) a L.reverse = a * 10 ^ L.length + Nat.ofDigits 10 L := by
  induction L generalizing a with
  | nil => simp [Nat.ofDigits]
  | cons d t ih =>
    rw [List.reverse_cons, List.foldl_append, ih]
    simp only [List.foldl, Nat.ofDigits_cons, List.length_cons, pow_succ]
    ring

theorem digitsToNat_natDecimalChars (n : Nat) : digitsToNat (natDecimalChars n) = n := by
  unfold digitsToNat natDecimalChars
  rw [List.foldl_map]
  have : List.foldl (fun (a : Nat) (d : Nat) => 10 * a + digitVal (Char.ofNat (48 + d))) 0
      (Nat.digits 10 n).reverse =
      List.foldl (fun (a : Nat) (d : Nat) => 10 * a + d) 0 (Nat.digits 10 n).reverse := by
    apply List.foldl_ext
    intro a d hdmem
    rw [List.mem_reverse] at hdmem
    rw [(digitChar_facts (Nat.digits_lt_base (by norm_num) hdmem)).2.1]
  rw [this, foldl_base10_reverse, Nat.ofDigits_digits]
  simp

theorem natDecimalChars_all_digits (n : Nat) :
    (natDecimalChars n).all Char.isDigit = true := by
  rw [List.all_eq_true]
  intro c hc
  simp only [natDecimalChars, List.mem_map, List.mem_reverse] at hc
  obtain ⟨d, hd, rfl⟩ := hc
  exact (digitChar_facts (Nat.digits_lt_base (by norm_num) hd)).1

theorem natDecimalChars_no_space (n : Nat) :
    ∀ c ∈ natDecimalChars n, isPySpace c = false := by
  intro c hc
  simp only [natDecimalChars, List.mem_map, List.mem_reverse] at hc
  obtain ⟨d, hd, rfl⟩ := hc
  exact (digitChar_facts (Nat.digits_lt_base (by norm_num) hd)).2.2

theorem parseNatDigits_natDecimalChars {n : Nat} (hn : n ≠ 0) :
    parseNatDigits (natDecimalChars n) = some n := by
  have hne : natDecimalChars n ≠ [] := by
    simp [natDecimalChars, Nat.digits_ne_nil_iff_ne_zero, hn]
  rw [parseNatDigits, if_pos ⟨hne, natDecimalChars_all_digits n⟩, digitsToNat_natDecimalChars]

theorem pyInt_intToDecimal (n : Int) : pyInt (intToDecimal n) = .ok n := by
  match n with
  | .ofNat 0 => decide
  | .ofNat (m + 1) =>
    have hchars : (intToDecimal (.ofNat (m + 1))).toList = natDecimalChars (m + 1) := by
      simp [intToDecimal, String.toList]
    rw [pyInt, hchars, stripChars_eq_self (natDecimalChars_no_space (m + 1))]
    have hne : natDecimalChars (m + 1) ≠ [] := by
      simp [natDecimalChars, Nat.digits_ne_nil_iff_ne_zero]
    obtain ⟨c, cs, hcc⟩ := List.exists_cons_of_ne_nil hne
    have hcmem : c ∈ natDecimalChars (m + 1) := by rw [hcc]; simp
    have hcdig : c.isDigit = true := by
      have := natDecimalChars_all_digits (m + 1)
      rw [List.all_eq_true] at this
      exact this c hcmem
    have hcneg : c ≠ '-' := by intro h; rw [h] at hcdig; exact absurd hcdig (by decide)
    have hcpos : c ≠ '+' := by intro h; rw [h] at hcdig; exact absurd hcdig (by decide)
    rw [hcc, pyIntCore, if_neg hcneg, if_neg hcpos, ← hcc,
      parseNatDigits_natDecimalChars (Nat.succ_ne_zero m)]
    rfl
  | .negSucc m =>
    have hchars : (intToDecimal (.negSucc m)).toList = '-' :: natDecimalChars (m + 1) := by
      simp [intToDecimal, String.toList]
    have hnospace : ∀ c ∈ '-' :: natDecimalChars (m + 1), isPySpace c = false := by
      intro c hc
      rcases List.mem_cons.1 hc with rfl | hc
      · decide
      · exact natDecimalChars_no_space (m + 1) c hc
    rw [pyInt, hchars, stripChars_eq_self hnospace, pyIntCore, if_pos rfl,
      parseNatDigits_natDecimalChars (Nat.succ_ne_zero m)]
    simp [Int.negSucc_eq]

theorem le_foldl_max_init (t : List Rat) (h : Rat) : h ≤ t.foldl max h := by
  induction t generalizing h with
  | nil => exact le_refl h
  | cons a t ih => exact le_trans (le_max_left h a) (ih (max h a))

theorem foldl_max_mem (t : List Rat) (h : Rat) : t.foldl max h ∈ h :: t := by
  induction t generalizing h with
  | nil => simp [List.foldl]
  | cons a t ih =>
    simp only [List.foldl]
    rcases List.mem_cons.1 (ih (max h a)) with hm | hm
    · rcases max_choice h a with hc | hc <;> rw [hm, hc] <;> simp
    · simp [hm]

theorem le_foldl_max_of_mem {t : List Rat} {x : Rat} (h : Rat) (hx : x ∈ t) :
    x ≤ t.foldl max h := by
  induction t generalizing h with
  | nil => cases hx
  | cons a t ih =>
    simp only [List.foldl]
    rcases List.mem_cons.1 hx with rfl | hm
    · exact le_trans (le_max_right h x) (le_foldl_max_init t (max h x))
    · exact ih (max h a) hm

theorem atleast2d_of_cons_cons {x : NDArray} {T : List Nat} (hT : T ≠ [])
    (hx : x.shape = 1 :: T) : atleast2d x = x := by
  cases T with
  | nil => exact absurd rfl hT
  | cons t0 ts =>
    cases x with
    | mk sh d => simp only at hx; subst hx; rfl

theorem foldl_headD_sum {rest : List NDArray} {T : List Nat}
    (h : ∀ b ∈ rest, b.shape = 1 :: T) (s : Nat) :
    rest.foldl (fun s b => s + b.shape.headD 0) s = s + rest.length := by
  induction rest generalizing s with
  | nil => simp
  | cons a t ih =>
    simp only [List.foldl, List.length_cons]
    rw [h a (by simp), ih (fun b hb => h b (by simp [hb]))]
    simp only [List.headD]
    omega

theorem vstack_uniform {xs : List NDArray} {T : List Nat} (hT : T ≠ []) (hne : xs ≠ [])
    (hsh : ∀ x ∈ xs, x.shape = 1 :: T) :
    ∃ d, vstack xs = .ok { shape := xs.length :: T, data := d } := by
  have hmap : xs.map atleast2d = xs := by
    conv_rhs => rw [← List.map_id xs]
    exact List.map_congr_left fun a ha => atleast2d_of_cons_cons hT (hsh a ha)
  cases xs with
  | nil => exact absurd rfl hne
  | cons a rest =>
    have hall : rest.all
        (fun b => decide (b.shape.tail = T) && decide (b.shape.length = T.length + 1)) = true := by
      rw [List.all_eq_true]
      intro b hb
      rw [hsh b (by simp [hb])]
      simp
    refine ⟨rest.foldl (fun d b => d ++ b.data) a.data, ?_⟩
    rw [vstack, hmap]
    simp only
    rw [hsh a (by simp)]
    simp only
    rw [if_pos hall, foldl_headD_sum (fun b hb => hsh b (by simp [hb])) 1]
    simp [Nat.add_comm]

theorem processOne_valid {st : TFModel} {rs : PILImage → Nat → Nat → List Rat}
    {b : EncImage} {img : PILImage} (hd : b.decoded = some img)
    (hW : 0 < st.IMAGE_WIDTH) (hH : 0 < st.IMAGE_HEIGHT) :
    ∃ d, processOne st rs b =
      .ok { shape := [1, st.IMAGE_HEIGHT.toNat, st.IMAGE_WIDTH.toNat, img.channels], data := d } := by
  refine ⟨rs img st.IMAGE_WIDTH.toNat st.IMAGE_HEIGHT.toNat, ?_⟩
  simp only [processOne, imageOpen, hd, PILImage.resize, if_pos (And.intro hW hH),
    img_to_array, expand_dims0, Bind.bind, Except.bind]

theorem processAll_uniform {st : TFModel} {rs : PILImage → Nat → Nat → List Rat}
    {c : Nat} {l : List EncImage} (hW : 0 < st.IMAGE_WIDTH) (hH : 0 < st.IMAGE_HEIGHT)
    (hch : ∀ e ∈ l, e.decoded.map PILImage.channels = some c) :
    ∃ xs, processAll st rs l = .ok xs ∧ xs.length = l.length ∧
      ∀ x ∈ xs, x.shape = [1, st.IMAGE_HEIGHT.toNat, st.IMAGE_WIDTH.toNat, c] := by
  induction l with
  | nil => exact ⟨[], rfl, rfl, by simp⟩
  | cons e t ih =>
    obtain ⟨img, himg, hc⟩ : ∃ img, e.decoded = some img ∧ img.channels = c := by
      have := hch e (by simp)
      cases hde : e.decoded with
      | none => rw [hde] at this; simp at this
      | some i => rw [hde] at this; simp at this; exact ⟨i, rfl, this⟩
    obtain ⟨d, hone⟩ := @processOne_valid st rs e img himg hW hH
    obtain ⟨xs, hall, hlen, hsh⟩ := ih (fun e he => hch e (by simp [he]))
    refine ⟨{ shape := [1, st.IMAGE_HEIGHT.toNat, st.IMAGE_WIDTH.toNat, img.channels], data := d } :: xs, ?_, by simp [hlen], ?_⟩
    · simp only [processAll, hone, hall, Bind.bind, Except.bind]
    · intro x hx
      rcases List.mem_cons.1 hx with rfl | hm
      · simp [hc]
      · exact hsh x hm

theorem processAll_error_of_malformed {st : TFModel} {rs : PILImage → Nat → Nat → List Rat}
    {l : List EncImage} (h : l.any (fun e => e.decoded.isNone) = true) :
    ∃ err, processAll st rs l = .error err := by
  induction l with
  | nil => simp at h
  | cons e t ih =>
    simp only [List.any_cons, Bool.or_eq_true] at h
    by_cases hde : e.decoded = none
    · refine ⟨.valueError ("cannot identify image file " ++ e.bytes), ?_⟩
      simp only [processAll, processOne, imageOpen, hde, Bind.bind, Except.bind]
    · have ht : t.any (fun e => e.decoded.isNone) = true := by
        rcases h with h | h
        · rw [Option.isNone_iff_eq_none] at h; exact absurd h hde
        · exact h
      cases hone : processOne st rs e with
      | error err => exact ⟨err, by simp only [processAll, hone, Bind.bind, Except.bind]⟩
      | ok x =>
        obtain ⟨err, herr⟩ := ih ht
        exact ⟨err, by simp only [processAll, hone, herr, Bind.bind, Except.bind]⟩

theorem preprocess_of_try_error {st : TFModel} {rs : PILImage → Nat → Nat → List Rat}
    {body : Body} {err : PyErr} (h : preprocessTry st rs body = .error err) :
    st.preprocess rs body = .error (.exception ("received: " ++ reprBody body)) := by
  unfold TFModel.preprocess
  rw [h]

theorem preprocessTry_error_of_malformed {st : TFModel} {rs : PILImage → Nat → Nat → List Rat}
    {body : Body} (h : (body.instances?.getD []).any (fun e => e.decoded.isNone) = true) :
    ∃ err, preprocessTry st rs body = .error err := by
  obtain ⟨err, herr⟩ := @processAll_error_of_malformed st rs (body.instances?.getD []) h
  exact ⟨err, by simp only [preprocessTry, herr, Bind.bind, Except.bind]⟩

/-- A json.load that fails on every input, for concrete witnesses. -/
def pjNone : String → Option Json := fun _ => none

/-- A trivial resampling kernel, for concrete witnesses. -/
def rsZero : PILImage → Nat → Nat → List Rat := fun _ _ _ => []

/-- A three-channel (RGB) sample image. -/
def imgRGB : PILImage := { width := 5, height := 4, channels := 3, pixels := [] }

/-- A one-channel (greyscale) sample image. -/
def imgGrey : PILImage := { width := 7, height := 2, channels := 1, pixels := [] }

/-- Well-formed bytes decoding to the RGB sample image. -/
def encRGB : EncImage := { bytes := "RGB-BYTES", decoded := some imgRGB }

/-- Well-formed bytes decoding to the greyscale sample image. -/
def encGrey : EncImage := { bytes := "GREY-BYTES", decoded := some imgGrey }

/-- Malformed bytes that PIL cannot decode. -/
def encBad : EncImage := { bytes := "NOISE", decoded := none }

/-- The adapter state produced by an empty environment. -/
def stDefault : TFModel :=
  { name := "m", model_dir := "d", IMAGE_WIDTH := 128, IMAGE_HEIGHT := 128, classes := none }

/-- The same state with a loaded class-label mapping. -/
def stLabelled : TFModel :=
  { stDefault with classes := some (Json.obj [("0", Json.str "mask")]) }

/-- A body with two RGB images. -/
def bodyTwoRGB : Body := { instances? := some [encRGB, encRGB] }

/-- A body with one RGB and one greyscale image, both valid. -/
def bodyMixed : Body := { instances? := some [encRGB, encGrey] }

/-- A body with a malformed second image. -/
def bodyBad : Body := { instances? := some [encRGB, encBad] }

/-- An environment with no variables and no files. -/
def envEmpty : Env := { vars := [], files := [] }

/-- An environment whose IMAGE_WIDTH is not an integer string. -/
def envBadWidth : Env := { vars := [("IMAGE_WIDTH", "abc")], files := [] }

/-- An environment with integer size strings. -/
def envSizes : Env :=
  { vars := [("IMAGE_WIDTH", intToDecimal 200), ("IMAGE_HEIGHT", intToDecimal 96)], files := [] }

/-- A constant loaded predictor, for concrete witnesses. -/
def modelConst : List NDArray → List (List Rat) := fun _ => [[1, 0]]

/-- C1 (counterexample): a body of two valid images, one RGB and one
greyscale, makes np.vstack fail on mismatched channel dimensions, so
preprocess raises the generic exception instead of returning a stacked
tensor: the claim as stated is false for this well-formed body of two
valid encoded images. -/
theorem preprocess_mixed_channels_cex :
    (bodyMixed.instances?.getD []).length = 2 ∧
    (bodyMixed.instances?.getD []).all (fun e => e.decoded.isSome) = true ∧
    (TFModel.preprocess stDefault rsZero bodyMixed).isOk = false ∧
    TFModel.preprocess stDefault rsZero bodyMixed =
      .error (.exception ("received: " ++ reprBody bodyMixed)) := by decide

/-- C1 (amended): for every body whose instances are N valid encoded
images all decoding to the same channel count, with N at least 1 and
positive configured sizes, preprocess returns a dict whose instances
value is a single-element list holding one stacked tensor of shape
(N, IMAGE_HEIGHT, IMAGE_WIDTH, channels). -/
theorem preprocess_batch_shape {st : TFModel} {rs : PILImage → Nat → Nat → List Rat}
    {body : Body} {l : List EncImage} {c : Nat}
    (hbody : body.instances? = some l) (hne : l ≠ [])
    (hW : 0 < st.IMAGE_WIDTH) (hH : 0 < st.IMAGE_HEIGHT)
    (hch : ∀ e ∈ l, e.decoded.map PILImage.channels = some c) :
    ∃ t : NDArray, st.preprocess rs body = .ok { instances? := some [t] } ∧
      t.shape = [l.length, st.IMAGE_HEIGHT.toNat, st.IMAGE_WIDTH.toNat, c] := by
  obtain ⟨xs, hall, hlen, hsh⟩ := @processAll_uniform st rs c l hW hH hch
  have hxne : xs ≠ [] := by
    intro hx
    apply hne
    apply List.length_eq_zero.1
    rw [← hlen, hx]
    rfl
  obtain ⟨d, hv⟩ :=
    vstack_uniform (T := [st.IMAGE_HEIGHT.toNat, st.IMAGE_WIDTH.toNat, c]) (by simp) hxne hsh
  refine ⟨{ shape := xs.length :: [st.IMAGE_HEIGHT.toNat, st.IMAGE_WIDTH.toNat, c], data := d },
    ?_, by simp [hlen]⟩
  unfold TFModel.preprocess
  have htry : preprocessTry st rs body =
      .ok { instances? :=
        some [{ shape := xs.length :: [st.IMAGE_HEIGHT.toNat, st.IMAGE_WIDTH.toNat, c], data := d }] } := by
    simp only [preprocessTry, hbody, Option.getD_some, hall, hv, Bind.bind, Except.bind]
  rw [htry]

/-- C1 (witness): two RGB images in the body give a stacked tensor of
shape (2, 128, 128, 3). -/
theorem preprocess_batch_shape_witness :
    ∃ t : NDArray, TFModel.preprocess stDefault rsZero bodyTwoRGB = .ok { instances? := some [t] } ∧
      t.shape = [2, 128, 128, 3] :=
  preprocess_batch_shape (l := [encRGB, encRGB]) rfl (by decide) (by decide) (by decide) (by decide)

/-- C2: for a predictor output with a nonempty first row, postprocess
returns, under the key Mask probability, the maximum value of that
first row (a member of the row that bounds every entry of the row). -/
theorem postprocess_first_row_max (st : TFModel) (row : List Rat) (rest : List (List Rat))
    (h : row ≠ []) :
    ∃ m, st.postprocess (row :: rest) = .ok { mask_probability := m } ∧
      m ∈ row ∧ ∀ x ∈ row, x ≤ m := by
  cases row with
  | nil => exact absurd rfl h
  | cons h0 t =>
    refine ⟨t.foldl max h0, ?_, foldl_max_mem t h0, ?_⟩
    · simp only [TFModel.postprocess, npMax, Bind.bind, Except.bind]
    · intro x hx
      rcases List.mem_cons.1 hx with rfl | hm
      · exact le_foldl_max_init t x
      · exact le_foldl_max_of_mem h0 hm

/-- C2 (witness): the output [[0.1, 0.9, 0.3]] yields Mask probability
0.9. -/
theorem postprocess_first_row_max_witness :
    (∃ m, stDefault.postprocess [[0.1, 0.9, 0.3]] = .ok { mask_probability := m } ∧
        m ∈ [(0.1 : Rat), 0.9, 0.3] ∧ ∀ x ∈ [(0.1 : Rat), 0.9, 0.3], x ≤ m) ∧
    stDefault.postprocess [[0.1, 0.9, 0.3]] = .ok { mask_probability := 0.9 } := by
  constructor
  · exact postprocess_first_row_max stDefault [0.1, 0.9, 0.3] [] (List.cons_ne_nil _ _)
  · simp only [TFModel.postprocess, npMax, List.foldl, Bind.bind, Except.bind]
    norm_num [max_def]

/-- C3 (counterexample): on the body without the instances key the code
does not return a zero-length tensor: np.vstack of the empty list
raises, the bare except catches it, and preprocess raises the generic
exception, so the claim that preprocess returns successfully is false
at this input. -/
theorem preprocess_missing_instances_cex :
    (TFModel.preprocess stDefault rsZero { instances? := none }).isOk = false ∧
    TFModel.preprocess stDefault rsZero { instances? := none } =
      .error (.exception ("received: " ++ reprBody { instances? := none })) := by decide

/-- C3 (amended): for every body that lacks the instances key,
preprocess treats the instance list as empty, stacking the empty list
fails, and preprocess raises the single generic exception whose message
contains the body (it does not return). -/
theorem preprocess_missing_instances_raises (st : TFModel)
    (rs : PILImage → Nat → Nat → List Rat) (body : Body) (h : body.instances? = none) :
    st.preprocess rs body = .error (.exception ("received: " ++ reprBody body)) := by
  apply @preprocess_of_try_error st rs body (.valueError "need at least one array to concatenate")
  simp only [preprocessTry, h, Option.getD_none, processAll, vstack, List.map_nil,
    Bind.bind, Except.bind]

/-- C3 (witness): the amended behaviour at the concrete keyless body. -/
theorem preprocess_missing_instances_raises_witness :
    TFModel.preprocess stDefault rsZero { instances? := none } =
      .error (.exception ("received: " ++ reprBody { instances? := none })) :=
  preprocess_missing_instances_raises stDefault rsZero { instances? := none } rfl

/-- C4: a batch containing a malformed image, and more generally any
exception inside the try block of preprocess, makes preprocess raise
exactly the one generic exception whose message interpolates the
original request body; no partial result is returned. -/
theorem preprocess_failure_single_exception (st : TFModel)
    (rs : PILImage → Nat → Nat → List Rat) (body : Body) :
    ((body.instances?.getD []).any (fun e => e.decoded.isNone) = true →
      st.preprocess rs body = .error (.exception ("received: " ++ reprBody body))) ∧
    (∀ err : PyErr, preprocessTry st rs body = .error err →
      st.preprocess rs body = .error (.exception ("received: " ++ reprBody body))) := by
  constructor
  · intro h
    obtain ⟨err, herr⟩ := @preprocessTry_error_of_malformed st rs body h
    exact preprocess_of_try_error herr
  · intro err herr
    exact preprocess_of_try_error herr

/-- C4 (witness): a body whose second image is malformed raises the
generic exception echoing that body. -/
theorem preprocess_failure_single_exception_witness :
    TFModel.preprocess stDefault rsZero bodyBad =
      .error (.exception ("received: " ++ reprBody bodyBad)) :=
  (preprocess_failure_single_exception stDefault rsZero bodyBad).1 (by decide)

/-- C5: when the classes_map variable is unset, or the file it names is
missing, or its contents do not parse, initialization still succeeds,
the classes mapping is set to none, and the two size parameters are
read as usual. -/
theorem init_classes_failure_silent (pj : String → Option Json) (env : Env)
    (nm md : String) (w h : Int)
    (hw : pyInt ((env.getVar "IMAGE_WIDTH").getD "128") = .ok w)
    (hh : pyInt ((env.getVar "IMAGE_HEIGHT").getD "128") = .ok h)
    (hc : env.getVar "classes_map" = none ∨
      (∃ p, env.getVar "classes_map" = some p ∧ (env.readFile p).isOk = false) ∨
      (∃ p contents, env.getVar "classes_map" = some p ∧ env.readFile p = .ok contents ∧
        pj contents = none)) :
    TFModel.init pj env nm md =
      .ok { name := nm, model_dir := md, IMAGE_WIDTH := w, IMAGE_HEIGHT := h, classes := none } := by
  have hcl : loadClasses pj env = none := by
    rcases hc with hc | ⟨p, hp, hf⟩ | ⟨p, contents, hp, hf, hj⟩
    · simp [loadClasses, hc]
    · cases hread : env.readFile p with
      | ok c => rw [hread] at hf; simp [Except.isOk, Except.toBool] at hf
      | error e => simp [loadClasses, hp, hread]
    · simp [loadClasses, hp, hf, hj]
  simp only [TFModel.init, hw, hh, hcl, Bind.bind, Except.bind]

/-- C5 (witness): in the empty environment initialization succeeds with
the default sizes and no classes mapping. -/
theorem init_classes_failure_silent_witness :
    TFModel.init pjNone envEmpty "m" "d" =
      .ok { name := "m", model_dir := "d", IMAGE_WIDTH := 128, IMAGE_HEIGHT := 128,
            classes := none } :=
  init_classes_failure_silent pjNone envEmpty "m" "d" 128 128 (by decide) (by decide) (Or.inl rfl)

/-- C6: with a fixed state, resampling kernel, deterministic predictor
and body, two invocations of the preprocess-predict-postprocess
pipeline yield identical response payloads. -/
theorem pipeline_deterministic (st : TFModel) (rs : PILImage → Nat → Nat → List Rat)
    (model : List NDArray → List (List Rat)) (body : Body) (r1 r2 : Except PyErr Response)
    (h1 : r1 = pipeline st rs model body) (h2 : r2 = pipeline st rs model body) : r1 = r2 :=
  h1.trans h2.symm

/-- C6 (witness): two runs of the pipeline on a concrete model and body
coincide. -/
theorem pipeline_deterministic_witness :
    pipeline stDefault rsZero modelConst bodyTwoRGB =
      pipeline stDefault rsZero modelConst bodyTwoRGB :=
  pipeline_deterministic stDefault rsZero modelConst bodyTwoRGB _ _ rfl rfl

/-- C7: the response of postprocess does not depend on the class-label
mapping: two adapter states that agree on everything except the classes
field produce the same payload on the same predictor output. -/
theorem postprocess_ignores_classes (s1 s2 : TFModel)
    (hn : s1.name = s2.name) (hm : s1.model_dir = s2.model_dir)
    (hw : s1.IMAGE_WIDTH = s2.IMAGE_WIDTH) (hh : s1.IMAGE_HEIGHT = s2.IMAGE_HEIGHT)
    (out : List (List Rat)) : s1.postprocess out = s2.postprocess out := rfl

/-- C7 (witness): the state with a loaded mapping and the state without
one give the same payload. -/
theorem postprocess_ignores_classes_witness :
    stDefault.postprocess [[0.1, 0.9, 0.3]] = stLabelled.postprocess [[0.1, 0.9, 0.3]] :=
  postprocess_ignores_classes stDefault stLabelled rfl rfl rfl rfl [[0.1, 0.9, 0.3]]

/-- C8: predict hands the value under the instances key (the empty list
when the key is absent) to the loaded predictor and returns the raw
predictor output unchanged, whatever its type. -/
theorem predict_forwards_instances :
    (∀ (β : Type) (st : TFModel) (model : List NDArray → β) (l : List NDArray),
        st.predict model { instances? := some l } = model l) ∧
    (∀ (β : Type) (st : TFModel) (model : List NDArray → β),
        st.predict model { instances? := none } = model []) :=
  ⟨fun _ _ _ _ => rfl, fun _ _ _ => rfl⟩

/-- C9: with both size variables unset, initialization configures
128 by 128; with both set to decimal integer strings, it configures
exactly those integers. -/
theorem init_image_size_config :
    (∀ (pj : String → Option Json) (env : Env) (nm md : String),
        env.getVar "IMAGE_WIDTH" = none → env.getVar "IMAGE_HEIGHT" = none →
        ∃ st, TFModel.init pj env nm md = .ok st ∧
          st.IMAGE_WIDTH = 128 ∧ st.IMAGE_HEIGHT = 128) ∧
    (∀ (pj : String → Option Json) (env : Env) (nm md : String) (n m : Int),
        env.getVar "IMAGE_WIDTH" = some (intToDecimal n) →
        env.getVar "IMAGE_HEIGHT" = some (intToDecimal m) →
        ∃ st, TFModel.init pj env nm md = .ok st ∧
          st.IMAGE_WIDTH = n ∧ st.IMAGE_HEIGHT = m) := by
  constructor
  · intro pj env nm md hw hh
    refine ⟨⟨nm, md, 128, 128, loadClasses pj env⟩, ?_, rfl, rfl⟩
    simp only [TFModel.init, hw, hh, Option.getD_none,
      show pyInt "128" = .ok 128 from by decide, Bind.bind, Except.bind]
  · intro pj env nm md n m hw hh
    refine ⟨⟨nm, md, n, m, loadClasses pj env⟩, ?_, rfl, rfl⟩
    simp only [TFModel.init, hw, hh, Option.getD_some, pyInt_intToDecimal, Bind.bind, Except.bind]

/-- C9 (witness): the empty environment gives 128 by 128; the
environment with the strings 200 and 96 gives 200 by 96. -/
theorem init_image_size_config_witness :
    (∃ st, TFModel.init pjNone envEmpty "m" "d" = .ok st ∧
        st.IMAGE_WIDTH = 128 ∧ st.IMAGE_HEIGHT = 128) ∧
    (∃ st, TFModel.init pjNone envSizes "m" "d" = .ok st ∧
        st.IMAGE_WIDTH = 200 ∧ st.IMAGE_HEIGHT = 96) :=
  ⟨init_image_size_config.1 pjNone envEmpty "m" "d" rfl rfl,
   init_image_size_config.2 pjNone envSizes "m" "d" 200 96 rfl rfl⟩

/-- C10: if IMAGE_WIDTH or IMAGE_HEIGHT is set to a string int() cannot
convert, construction fails: the silent-degradation policy of the
classes file does not extend to the size parameters. -/
theorem init_invalid_size_raises (pj : String → Option Json) (env : Env)
    (nm md : String) (s : String)
    (hvar : env.getVar "IMAGE_WIDTH" = some s ∨ env.getVar "IMAGE_HEIGHT" = some s)
    (hbad : (pyInt s).isOk = false) :
    (TFModel.init pj env nm md).isOk = false := by
  cases hres : pyInt s with
  | ok k => rw [hres] at hbad; simp [Except.isOk, Except.toBool] at hbad
  | error e =>
    rcases hvar with hv | hv
    · simp only [TFModel.init, hv, Option.getD_some, hres, Bind.bind, Except.bind]
      rfl
    · cases hw : pyInt ((env.getVar "IMAGE_WIDTH").getD "128") with
      | error e2 =>
        simp only [TFModel.init, hw, Bind.bind, Except.bind]
        rfl
      | ok w =>
        simp only [TFModel.init, hw, hv, Option.getD_some, hres, Bind.bind, Except.bind]
        rfl

/-- C10 (witness): IMAGE_WIDTH set to the string abc makes
initialization fail. -/
theorem init_invalid_size_raises_witness :
    (TFModel.init pjNone envBadWidth "m" "d").isOk = false :=
  init_invalid_size_raises pjNone envBadWidth "m" "d" "abc" (Or.inl rfl) (by decide)
